import Mathlib

/-!
Shallow embedding of the `streamlit_demo` repository's data pipeline.

The repository processes tabular data (pandas DataFrames) read from CSV
files.  We model a cell value as an inductive `Value` (integer, string, or
null/NaN), a DataFrame as a column-name list together with a list of rows,
and the Python functions `process_data` (modules/data_processor.py),
`validate_file_path` / `load_data` (modules/data_loader.py),
`handle_dataset` (modules/data_handler.py) and `manage_data`
(modules/data_manager.py) as Lean functions returning `Except PyError`
values, with Python exceptions as the error type.
-/

namespace StreamlitDemo

/-- A pandas cell value: an integer, a string, or null (NaN). -/
inductive Value where
  | num (n : Int)
  | str (s : String)
  | null
deriving DecidableEq, Repr

/-- Python exception kinds raised by the modelled code. -/
inductive PyError where
  | typeError
  | keyError
  | valueError
  | attributeError
  | fileNotFoundError
  | emptyDataError
  | parserError
  | isADirectoryError
deriving DecidableEq, Repr

/-- A pandas DataFrame: ordered column names and ordered rows of values.
Each row is positional; cell `j` of a row belongs to column `j`. -/
structure DataFrame where
  cols : List String
  rows : List (List Value)
deriving DecidableEq, Repr

/-- A pandas Series: a named one-dimensional sequence of values.  A Series
has no `columns` attribute. -/
structure Series where
  name : String
  vals : List Value
deriving DecidableEq, Repr

/-- The `Union[pd.DataFrame, pd.Series]`-or-anything input that Python's
dynamic typing lets callers pass to `process_data`. -/
inductive PdInput where
  | df (d : DataFrame)
  | series (s : Series)
  | other
deriving DecidableEq, Repr

instance instDecEqExcept {ε α : Type} [DecidableEq ε] [DecidableEq α] :
    DecidableEq (Except ε α) := fun a b =>
  match a, b with
  | .error e, .error f =>
    if h : e = f then isTrue (by rw [h])
    else isFalse (by intro hc; injection hc with h2; exact h h2)
  | .ok x, .ok y =>
    if h : x = y then isTrue (by rw [h])
    else isFalse (by intro hc; injection hc with h2; exact h h2)
  | .error _, .ok _ => isFalse (by intro hc; injection hc)
  | .ok _, .error _ => isFalse (by intro hc; injection hc)

/-- Index of the first column named `c` (Python `df.columns` lookup and the
membership test `c in df.columns`). -/
def colIdx : List String → String → Option Nat
  | [], _ => none
  | c :: cs, s => if c = s then some 0 else (colIdx cs s).map (· + 1)

/-- Column extraction `df[c]`: the value of column index `i` in each row. -/
def DataFrame.colVals (d : DataFrame) (i : Nat) : List Value :=
  d.rows.map (fun r => r.getD i Value.null)

/-- Replace, row by row, the value at column index `i` with the
corresponding element of `vs` (column assignment `df[c] = vs`). -/
def setColumn : List (List Value) → Nat → List Value → List (List Value)
  | r :: rs, i, v :: vs => r.set i v :: setColumn rs i vs
  | rs, _, [] => rs
  | [], _, _ => []

/-- Column assignment `df[c] = vs` at column index `i`. -/
def DataFrame.setCol (d : DataFrame) (i : Nat) (vs : List Value) : DataFrame :=
  ⟨d.cols, setColumn d.rows i vs⟩

/-- Every row has exactly one cell per column. -/
def DataFrame.wellFormed (d : DataFrame) : Prop :=
  ∀ r ∈ d.rows, r.length = d.cols.length

instance (d : DataFrame) : Decidable d.wellFormed :=
  inferInstanceAs (Decidable (∀ r ∈ d.rows, r.length = d.cols.length))

/-- The numeric value of a decimal digit character. -/
def charDigit? (c : Char) : Option Nat :=
  if 48 ≤ c.toNat ∧ c.toNat ≤ 57 then some (c.toNat - 48) else none

/-- Accumulate the decimal digits of a character list; any non-digit makes
the parse fail. -/
def charsToNatAux : List Char → Nat → Option Nat
  | [], acc => some acc
  | c :: cs, acc =>
    match charDigit? c with
    | none => none
    | some d => charsToNatAux cs (acc * 10 + d)

/-- Parse a string as an optionally negated decimal integer literal. -/
def strToInt? (s : String) : Option Int :=
  match s.data with
  | [] => none
  | '-' :: rest =>
    if rest.isEmpty then none
    else (charsToNatAux rest 0).map (fun n => -(n : Int))
  | cs => (charsToNatAux cs 0).map (fun n => (n : Int))

/-- `pd.to_numeric` on one cell: numbers stay, null (NaN) stays null,
strings are parsed as integer literals and anything unparsable fails. -/
def Value.toNumeric? : Value → Option Value
  | .num n => some (.num n)
  | .null => some .null
  | .str s => (strToInt? s).map .num

/-- Elementwise numeric addition `series + 1`: null (NaN) plus one is null. -/
def Value.addOne : Value → Value
  | .num n => .num (n + 1)
  | v => v

/-- `mapM` over `Option` by direct recursion (failure at any element fails
the whole column, as `pd.to_numeric` does). -/
def optMapM (f : Value → Option Value) : List Value → Option (List Value)
  | [] => some []
  | v :: vs =>
    match f v with
    | none => none
    | some w =>
      match optMapM f vs with
      | none => none
      | some ws => some (w :: ws)

/-- `process_data` from modules/data_processor.py: reject non-pandas input
with TypeError; reading `.columns` on a Series raises AttributeError; a
DataFrame without an age column raises KeyError; otherwise copy the input,
coerce the age column to numeric (ValueError when impossible) and add one
to it. -/
def process_data : PdInput → Except PyError DataFrame
  | .other => .error .typeError
  | .series _ => .error .attributeError
  | .df d =>
    match colIdx d.cols "age" with
    | none => .error .keyError
    | some i =>
      let processed := d
      match optMapM Value.toNumeric? (processed.colVals i) with
      | none => .error .valueError
      | some vs =>
        let p2 := processed.setCol i vs
        let p3 := p2.setCol i ((p2.colVals i).map Value.addOne)
        .ok p3

/-- `df.empty`: true when the frame has no rows (or no columns). -/
def DataFrame.isEmptyDF (d : DataFrame) : Bool :=
  d.rows.isEmpty || d.cols.isEmpty

/-! ### Filesystem and CSV loading (modules/data_loader.py) -/

/-- A filesystem entry: a regular file with textual content, or a directory. -/
inductive FsEntry where
  | file (content : String)
  | dir
deriving DecidableEq, Repr

/-- A filesystem: a finite map from paths to entries. -/
structure FileSystem where
  entries : List (String × FsEntry)
deriving DecidableEq, Repr

/-- `Path(p).exists()` / entry lookup. -/
def FileSystem.lookup (fs : FileSystem) (p : String) : Option FsEntry :=
  (fs.entries.find? (fun e => decide (e.1 = p))).map (·.2)

/-- Split a character list at every occurrence of `sep`. -/
def splitCharsOn (sep : Char) : List Char → List (List Char)
  | [] => [[]]
  | c :: cs =>
    match splitCharsOn sep cs with
    | [] => if c = sep then [[], []] else [[c]]
    | g :: gs => if c = sep then [] :: g :: gs else (c :: g) :: gs

/-- `str.split(sep)` for a one-character separator. -/
def splitStrOn (sep : Char) (s : String) : List String :=
  (splitCharsOn sep s.data).map (fun cs => String.mk cs)

/-- Lower-case one ASCII character. -/
def lowerChar (c : Char) : Char :=
  if 65 ≤ c.toNat ∧ c.toNat ≤ 90 then Char.ofNat (c.toNat + 32) else c

/-- `str.lower()` on ASCII strings. -/
def strLower (s : String) : String := String.mk (s.data.map lowerChar)

/-- `Path(p).suffix`: the final dotted extension of the last path component,
including the dot, or the empty string when there is none. -/
def pathSuffix (p : String) : String :=
  let base := (splitStrOn '/' p).getLastD ""
  let parts := splitStrOn '.' base
  if parts.length ≤ 1 then "" else "." ++ parts.getLastD ""

/-- One CSV cell: empty cells are NaN, integer literals are numbers,
anything else stays a string. -/
def parseCell (s : String) : Value :=
  if s = "" then Value.null
  else
    match strToInt? s with
    | some n => Value.num n
    | none => Value.str s

/-- Nonempty lines of the file content. -/
def csvLines (content : String) : List String :=
  (splitStrOn '\n' content).filter (fun l => decide (l ≠ ""))

/-- `pd.read_csv` with the defaults used by this repository (comma
separator, first line as header): a file with no parseable lines raises
EmptyDataError; otherwise the first line gives the columns and the
remaining lines the rows. -/
def read_csv (content : String) : Except PyError DataFrame :=
  match csvLines content with
  | [] => .error .emptyDataError
  | header :: rest =>
    .ok ⟨splitStrOn ',' header,
      rest.map (fun l => (splitStrOn ',' l).map parseCell)⟩

/-- `validate_file_path` from modules/data_loader.py: ValueError on an
empty path, FileNotFoundError when the path does not exist, ValueError when
it is not a regular file, and a logged warning (returned here) when the
extension is not `.csv`/`.txt`. -/
def validate_file_path (fs : FileSystem) (p : String) :
    Except PyError (List String) :=
  if p = "" then .error .valueError
  else
    match fs.lookup p with
    | none => .error .fileNotFoundError
    | some .dir => .error .valueError
    | some (.file _) =>
      if strLower (pathSuffix p) = ".csv" ∨ strLower (pathSuffix p) = ".txt" then
        .ok []
      else
        .ok ["Advertencia: El archivo no tiene extension CSV: " ++ p]

/-- `load_data` from modules/data_loader.py.  Returns the Python result
(`None` would be `Except.ok none`) together with the warnings logged on the
way.  Every exception raised inside the body is caught, logged and
re-raised unchanged, so the model propagates errors directly. -/
def load_data (fs : FileSystem) (p : String) :
    Except PyError (Option DataFrame) × List String :=
  match validate_file_path fs p with
  | .error e => (.error e, [])
  | .ok w1 =>
    match fs.lookup p with
    | some (.file content) =>
      match read_csv content with
      | .error e => (.error e, w1)
      | .ok df =>
        if df.isEmptyDF then
          (.ok (some df), w1 ++ ["Advertencia: El archivo esta vacio: " ++ p])
        else
          (.ok (some df), w1)
    | _ => (.error .fileNotFoundError, w1)

/-! ### The two duplicate processor variants -/

/-- `mapM` over `Except` by direct recursion, failing at the first
erroring element. -/
def excMapM (f : Value → Except PyError Value) :
    List Value → Except PyError (List Value)
  | [] => .ok []
  | v :: vs =>
    match f v with
    | .error e => .error e
    | .ok w =>
      match excMapM f vs with
      | .error e => .error e
      | .ok ws => .ok (w :: ws)

/-- The per-element lambda of `handle_dataset`:
`x + 1 if x > 18 else x`.  Comparing NaN with 18 is false, so null is
returned unchanged; comparing a Python string with an int raises
TypeError. -/
def gt18Step : Value → Except PyError Value
  | .num n => .ok (if 18 < n then .num (n + 1) else .num n)
  | .null => .ok .null
  | .str _ => .error .typeError

/-- The per-element conditional of `manage_data`:
`age + 1 if age >= 18 else age`. -/
def ge18Step : Value → Except PyError Value
  | .num n => .ok (if 18 ≤ n then .num (n + 1) else .num n)
  | .null => .ok .null
  | .str _ => .error .typeError

/-- `df.dropna(subset=[c])` at column index `i`, which is also
`df[df[c].notnull()]`: keep the rows whose value in that column is not
null. -/
def DataFrame.dropnaCol (d : DataFrame) (i : Nat) : DataFrame :=
  ⟨d.cols, d.rows.filter (fun r => decide (r.getD i Value.null ≠ Value.null))⟩

/-- Reading a path as `pd.read_csv(path)` does: missing paths raise
FileNotFoundError, directories raise IsADirectoryError. -/
def readCsvPath (fs : FileSystem) (p : String) : Except PyError DataFrame :=
  match fs.lookup p with
  | none => .error .fileNotFoundError
  | some .dir => .error .isADirectoryError
  | some (.file content) => read_csv content

/-- `handle_dataset` from modules/data_handler.py: read the CSV, apply
`x + 1 if x > 18 else x` to the age column, then drop rows with null
age. -/
def handle_dataset (fs : FileSystem) (p : String) : Except PyError DataFrame :=
  match readCsvPath fs p with
  | .error e => .error e
  | .ok df =>
    match colIdx df.cols "age" with
    | none => .error .keyError
    | some i =>
      match excMapM gt18Step (df.colVals i) with
      | .error e => .error e
      | .ok vs => .ok ((df.setCol i vs).dropnaCol i)

/-- `manage_data` from modules/data_manager.py: read the CSV, rebuild the
age column with `age + 1 if age >= 18 else age`, then keep the rows whose
age is not null. -/
def manage_data (fs : FileSystem) (p : String) : Except PyError DataFrame :=
  match readCsvPath fs p with
  | .error e => .error e
  | .ok df =>
    match colIdx df.cols "age" with
    | none => .error .keyError
    | some i =>
      match excMapM ge18Step (df.colVals i) with
      | .error e => .error e
      | .ok vs => .ok ((df.setCol i vs).dropnaCol i)

/-! ### Heap model for the mutation claim

`process_data` copies its input before assigning to the age column. To
state that the input is not mutated we make the store explicit: a heap of
DataFrames addressed by natural-number references, with `data.copy()` as
an allocation and each column assignment as an in-place update. -/

/-- A heap of DataFrames; a reference is an index into the store. -/
structure Heap where
  store : List DataFrame
deriving DecidableEq, Repr

/-- Dereference. -/
def Heap.get (h : Heap) (r : Nat) : DataFrame :=
  h.store.getD r ⟨[], []⟩

/-- Allocate a fresh DataFrame (`data.copy()`), returning its reference. -/
def Heap.alloc (h : Heap) (d : DataFrame) : Heap × Nat :=
  (⟨h.store ++ [d]⟩, h.store.length)

/-- In-place update of the DataFrame at reference `r`. -/
def Heap.put (h : Heap) (r : Nat) (d : DataFrame) : Heap :=
  ⟨h.store.set r d⟩

/-- `process_data` on a DataFrame reference, with the copy and the two
column assignments made explicit as heap operations. -/
def process_data_heap (h : Heap) (r : Nat) : Except PyError (Heap × Nat) :=
  let d := h.get r
  match colIdx d.cols "age" with
  | none => .error .keyError
  | some i =>
    let a := h.alloc d
    let h1 := a.1
    let r1 := a.2
    match optMapM Value.toNumeric? ((h1.get r1).colVals i) with
    | none => .error .valueError
    | some vs =>
      let h2 := h1.put r1 ((h1.get r1).setCol i vs)
      let h3 := h2.put r1 ((h2.get r1).setCol i
        (((h2.get r1).colVals i).map Value.addOne))
      .ok (h3, r1)

/-- A value is a number. -/
def Value.isNum : Value → Bool
  | .num _ => true
  | _ => false

/-! ### Helper lemmas about lists and column operations -/

theorem getD_set_ne {α : Type} (l : List α) {i j : Nat} (h : i ≠ j)
    (v dflt : α) : (l.set i v).getD j dflt = l.getD j dflt := by
  rcases Nat.lt_or_ge j l.length with hj | hj
  · rw [List.getD_eq_getElem _ _ (by simpa using hj), List.getD_eq_getElem _ _ hj]
    exact List.getElem_set_ne h _
  · rw [List.getD_eq_default _ _ (by simpa using hj), List.getD_eq_default _ _ hj]

theorem getD_set_self {α : Type} (l : List α) {i : Nat} (hi : i < l.length)
    (v dflt : α) : (l.set i v).getD i dflt = v := by
  rw [List.getD_eq_getElem _ _ (by simpa using hi)]
  exact List.getElem_set_self _

theorem getD_map_lt {α β : Type} (f : α → β) (l : List α) {k : Nat}
    (hk : k < l.length) (d1 : β) (d2 : α) :
    (l.map f).getD k d1 = f (l.getD k d2) := by
  rw [List.getD_eq_getElem _ _ (by simpa using hk), List.getD_eq_getElem _ _ hk]
  exact List.getElem_map _

theorem colIdx_lt_length {cs : List String} {c : String} {i : Nat}
    (h : colIdx cs c = some i) : i < cs.length := by
  induction cs generalizing i with
  | nil => simp [colIdx] at h
  | cons a as ih =>
    by_cases hac : a = c
    · simp only [colIdx, if_pos hac, Option.some.injEq] at h
      subst h
      simp
    · simp only [colIdx, if_neg hac, Option.map_eq_some'] at h
      obtain ⟨i0, hi0, rfl⟩ := h
      have := ih hi0
      simp only [List.length_cons]
      omega

theorem colIdx_eq_none_iff {cs : List String} {c : String} :
    colIdx cs c = none ↔ c ∉ cs := by
  induction cs with
  | nil => simp [colIdx]
  | cons a as ih =>
    by_cases hac : a = c
    · simp [colIdx, hac]
    · simp only [colIdx, if_neg hac, Option.map_eq_none', ih, List.mem_cons]
      constructor
      · intro hn hor
        rcases hor with h1 | h2
        · exact hac h1.symm
        · exact hn h2
      · intro hn h2
        exact hn (Or.inr h2)

theorem setColumn_length (rs : List (List Value)) (i : Nat) (vs : List Value)
    (h : vs.length = rs.length) : (setColumn rs i vs).length = rs.length := by
  induction rs generalizing vs with
  | nil =>
    cases vs with
    | nil => simp [setColumn]
    | cons v vs2 => simp at h
  | cons r rs2 ih =>
    cases vs with
    | nil => simp at h
    | cons v vs2 =>
      simp only [setColumn, List.length_cons]
      rw [ih vs2 (by simpa using h)]

theorem setColumn_getD (rs : List (List Value)) (i : Nat) (vs : List Value)
    (h : vs.length = rs.length) {k : Nat} (hk : k < rs.length) :
    (setColumn rs i vs).getD k [] =
      (rs.getD k []).set i (vs.getD k Value.null) := by
  induction rs generalizing vs k with
  | nil => simp at hk
  | cons r rs2 ih =>
    cases vs with
    | nil => simp at h
    | cons v vs2 =>
      cases k with
      | zero => simp [setColumn]
      | succ k2 =>
        simp only [setColumn, List.getD_cons_succ]
        exact ih vs2 (by simpa using h) (by simpa using hk)

theorem optMapM_congr_some {f : Value → Option Value} {g : Value → Value}
    (vs : List Value) (h : ∀ v ∈ vs, f v = some (g v)) :
    optMapM f vs = some (vs.map g) := by
  induction vs with
  | nil => simp [optMapM]
  | cons v vs2 ih =>
    have hv : f v = some (g v) := h v (by simp)
    have ht : optMapM f vs2 = some (vs2.map g) :=
      ih (fun w hw => h w (by simp [hw]))
    simp [optMapM, hv, ht]

theorem optMapM_eq_none_of_mem {f : Value → Option Value} {vs : List Value}
    {v : Value} (hv : v ∈ vs) (hf : f v = none) : optMapM f vs = none := by
  induction vs with
  | nil => simp at hv
  | cons a as ih =>
    rcases List.mem_cons.mp hv with rfl | hmem
    · simp [optMapM, hf]
    · cases hfa : f a with
      | none => simp [optMapM, hfa]
      | some w => simp [optMapM, hfa, ih hmem]

theorem excMapM_congr_ok {f : Value → Except PyError Value}
    {g : Value → Value} (vs : List Value)
    (h : ∀ v ∈ vs, f v = .ok (g v)) : excMapM f vs = .ok (vs.map g) := by
  induction vs with
  | nil => simp [excMapM]
  | cons v vs2 ih =>
    have hv : f v = .ok (g v) := h v (by simp)
    have ht : excMapM f vs2 = .ok (vs2.map g) :=
      ih (fun w hw => h w (by simp [hw]))
    simp [excMapM, hv, ht]

/-! ### Theorems about the claims -/

/-- C4: a DataFrame without an age column makes `process_data` fail with
KeyError, returning no dataset. -/
theorem process_data_missing_age_keyError (d : DataFrame)
    (h : "age" ∉ d.cols) : process_data (.df d) = .error .keyError := by
  have hnone : colIdx d.cols "age" = none := colIdx_eq_none_iff.mpr h
  simp [process_data, hnone]

/-- Witness for C4 at the one-column DataFrame `[["Alice"]]` with column
list `["name"]`. -/
theorem process_data_missing_age_keyError_witness :
    process_data (.df ⟨["name"], [[.str "Alice"]]⟩) = .error .keyError :=
  process_data_missing_age_keyError _ (by decide)

/-- C10: `process_data` on any pandas Series passes the isinstance check
but fails reading `.columns` with AttributeError, which is neither the
TypeError of the type check nor the KeyError of the missing-column
check. -/
theorem process_data_series_attributeError :
    ∀ s : Series, process_data (.series s) = .error .attributeError ∧
      PyError.attributeError ≠ PyError.typeError ∧
      PyError.attributeError ≠ PyError.keyError := by
  intro s
  exact ⟨rfl, by decide, by decide⟩

/-- C9: `load_data` never returns Python `None`: on every input it either
raises an exception or returns a DataFrame. -/
theorem load_data_never_none :
    ∀ (fs : FileSystem) (p : String),
      (∃ e, (load_data fs p).1 = .error e) ∨
      (∃ d2, (load_data fs p).1 = .ok (some d2)) := by
  intro fs p
  unfold load_data
  split
  · exact Or.inl ⟨_, rfl⟩
  · split
    · split
      · exact Or.inl ⟨_, rfl⟩
      · split
        · exact Or.inr ⟨_, rfl⟩
        · exact Or.inr ⟨_, rfl⟩
    · exact Or.inl ⟨_, rfl⟩

/-- Rows fetched by a valid index are members of the row list, so a
well-formed DataFrame gives their length. -/
theorem rowLen_of_wellFormed {d : DataFrame} (hwf : d.wellFormed) {k : Nat}
    (hk : k < d.rows.length) : (d.rows.getD k []).length = d.cols.length := by
  have hmem : d.rows.getD k [] ∈ d.rows := by
    rw [List.getD_eq_getElem _ _ hk]
    exact List.getElem_mem _
  exact hwf _ hmem

/-- Shape of a successful `process_data` run: when the numeric coercion of
the age column (at index `i`) succeeds and acts as `g` on every cell, the
result keeps the columns, the row count and every cell outside the age
column, and each age cell becomes its coerced value plus one. -/
theorem process_data_success_shape (d : DataFrame) (i : Nat)
    (g : Value → Value)
    (hwf : d.wellFormed)
    (hi : colIdx d.cols "age" = some i)
    (hcoerce : optMapM Value.toNumeric? (d.colVals i)
      = some ((d.colVals i).map g)) :
    ∃ d2, process_data (.df d) = .ok d2 ∧
      d2.cols = d.cols ∧
      d2.rows.length = d.rows.length ∧
      (∀ k j, j ≠ i →
        (d2.rows.getD k []).getD j Value.null
          = (d.rows.getD k []).getD j Value.null) ∧
      (∀ k, k < d.rows.length →
        (d2.rows.getD k []).getD i Value.null
          = Value.addOne (g ((d.rows.getD k []).getD i Value.null))) := by
  have hilt : i < d.cols.length := colIdx_lt_length hi
  have hcv_len : ((d.colVals i).map g).length = d.rows.length := by
    simp [DataFrame.colVals]
  set p2 := d.setCol i ((d.colVals i).map g) with hp2
  set p3 := p2.setCol i ((p2.colVals i).map Value.addOne) with hp3
  have hrun : process_data (.df d) = .ok p3 := by
    simp [process_data, hi, hcoerce, hp2, hp3]
  have hlen2 : p2.rows.length = d.rows.length :=
    setColumn_length _ _ _ hcv_len
  have hrow2 : ∀ k, k < d.rows.length →
      p2.rows.getD k [] =
        (d.rows.getD k []).set i
          (g ((d.rows.getD k []).getD i Value.null)) := by
    intro k hk
    have := setColumn_getD d.rows i ((d.colVals i).map g) hcv_len hk
    rw [hp2]
    show (setColumn d.rows i ((d.colVals i).map g)).getD k [] = _
    rw [this]
    congr 1
    have h1 : ((d.colVals i).map g).getD k Value.null
        = g ((d.colVals i).getD k Value.null) := by
      refine getD_map_lt _ _ ?_ _ _
      simpa [DataFrame.colVals] using hk
    rw [h1]
    congr 1
    exact getD_map_lt _ _ hk _ []
  have hrow2len : ∀ k, k < d.rows.length →
      (p2.rows.getD k []).length = d.cols.length := by
    intro k hk
    rw [hrow2 k hk, List.length_set]
    exact rowLen_of_wellFormed hwf hk
  have hcv2_len : ((p2.colVals i).map Value.addOne).length = p2.rows.length := by
    simp [DataFrame.colVals]
  have hlen3 : p3.rows.length = d.rows.length := by
    have := setColumn_length p2.rows i _ hcv2_len
    rw [hp3]
    show (setColumn p2.rows i _).length = _
    rw [this, hlen2]
  have hrow3 : ∀ k, k < d.rows.length →
      p3.rows.getD k [] =
        (p2.rows.getD k []).set i
          (Value.addOne ((p2.rows.getD k []).getD i Value.null)) := by
    intro k hk
    have hk2 : k < p2.rows.length := by rw [hlen2]; exact hk
    have := setColumn_getD p2.rows i _ hcv2_len hk2
    rw [hp3]
    show (setColumn p2.rows i _).getD k [] = _
    rw [this]
    congr 1
    have h1 : ((p2.colVals i).map Value.addOne).getD k Value.null
        = Value.addOne ((p2.colVals i).getD k Value.null) := by
      refine getD_map_lt _ _ ?_ _ _
      simp [DataFrame.colVals]
      exact hk2
    rw [h1]
    congr 1
    exact getD_map_lt _ _ hk2 _ []
  refine ⟨p3, hrun, rfl, hlen3, ?_, ?_⟩
  · intro k j hj
    rcases Nat.lt_or_ge k d.rows.length with hk | hk
    · rw [hrow3 k hk, getD_set_ne _ (fun h => hj h.symm),
        hrow2 k hk, getD_set_ne _ (fun h => hj h.symm)]
    · have h3 : p3.rows.getD k [] = ([] : List Value) :=
        List.getD_eq_default _ _ (by rw [hlen3]; exact hk)
      have h1 : d.rows.getD k [] = ([] : List Value) :=
        List.getD_eq_default _ _ hk
      rw [h3, h1]
  · intro k hk
    have hl2 : i < (p2.rows.getD k []).length := by
      rw [hrow2len k hk]; exact hilt
    have hl1 : i < (d.rows.getD k []).length := by
      rw [rowLen_of_wellFormed hwf hk]; exact hilt
    rw [hrow3 k hk, getD_set_self _ hl2, hrow2 k hk, getD_set_self _ hl1]

/-- C1: on a well-formed DataFrame whose age column (at index `i`) holds
only numbers, `process_data` succeeds with a DataFrame that has the same
columns, the same number of rows, every cell outside the age column
unchanged, and every age value incremented by exactly one. -/
theorem process_data_increments_age (d : DataFrame) (i : Nat)
    (hwf : d.wellFormed)
    (hi : colIdx d.cols "age" = some i)
    (hnum : ∀ r ∈ d.rows, (r.getD i Value.null).isNum = true) :
    ∃ d2, process_data (.df d) = .ok d2 ∧
      d2.cols = d.cols ∧
      d2.rows.length = d.rows.length ∧
      (∀ k j, j ≠ i →
        (d2.rows.getD k []).getD j Value.null
          = (d.rows.getD k []).getD j Value.null) ∧
      (∀ k, k < d.rows.length → ∀ n : Int,
        (d.rows.getD k []).getD i Value.null = Value.num n →
        (d2.rows.getD k []).getD i Value.null = Value.num (n + 1)) := by
  have hcoerce : optMapM Value.toNumeric? (d.colVals i)
      = some ((d.colVals i).map id) := by
    apply optMapM_congr_some
    intro v hv
    obtain ⟨r, hr, hrv⟩ := List.mem_map.mp hv
    have hn := hnum r hr
    rw [hrv] at hn
    cases v with
    | num n => simp [Value.toNumeric?]
    | str s => simp [Value.isNum] at hn
    | null => simp [Value.isNum] at hn
  obtain ⟨d2, hrun, hcols, hlen, hother, hage⟩ :=
    process_data_success_shape d i id hwf hi hcoerce
  refine ⟨d2, hrun, hcols, hlen, hother, ?_⟩
  intro k hk n hval
  rw [hage k hk, hval]
  rfl

/-- Witness for C1 at the two-row DataFrame with columns name, age and
rows (Alice, 25), (Bob, 30): ages become 26 and 31, names stay. -/
theorem process_data_increments_age_witness :
    ∃ d2, process_data (.df ⟨["name", "age"],
        [[.str "Alice", .num 25], [.str "Bob", .num 30]]⟩) = .ok d2 ∧
      d2.cols = (⟨["name", "age"],
        [[.str "Alice", .num 25], [.str "Bob", .num 30]]⟩ : DataFrame).cols ∧
      d2.rows.length = 2 ∧
      (∀ k j, j ≠ 1 →
        (d2.rows.getD k []).getD j Value.null
          = (([[Value.str "Alice", Value.num 25],
              [Value.str "Bob", Value.num 30]]).getD k []).getD j Value.null) ∧
      (∀ k, k < 2 → ∀ n : Int,
        (([[Value.str "Alice", Value.num 25],
            [Value.str "Bob", Value.num 30]]).getD k []).getD 1 Value.null
          = Value.num n →
        (d2.rows.getD k []).getD 1 Value.null = Value.num (n + 1)) :=
  process_data_increments_age
    ⟨["name", "age"], [[.str "Alice", .num 25], [.str "Bob", .num 30]]⟩ 1
    (by decide) (by decide) (by decide)

/-- C5: with the age column at index `i` of a well-formed DataFrame,
`process_data` raises ValueError as soon as one age value cannot be
coerced to numeric, and when every value is coercible it succeeds and
each value coerced to a number `n` ends up as `n + 1`. -/
theorem process_data_coercion (d : DataFrame) (i : Nat)
    (hwf : d.wellFormed)
    (hi : colIdx d.cols "age" = some i) :
    ((∃ v ∈ d.colVals i, Value.toNumeric? v = none) →
      process_data (.df d) = .error .valueError)
    ∧ ((∀ v ∈ d.colVals i, (Value.toNumeric? v).isSome = true) →
      ∃ d2, process_data (.df d) = .ok d2 ∧
        d2.rows.length = d.rows.length ∧
        ∀ k, k < d.rows.length → ∀ n : Int,
          Value.toNumeric? ((d.rows.getD k []).getD i Value.null)
            = some (Value.num n) →
          (d2.rows.getD k []).getD i Value.null = Value.num (n + 1)) := by
  constructor
  · rintro ⟨v, hv, hnone⟩
    have hfail : optMapM Value.toNumeric? (d.colVals i) = none :=
      optMapM_eq_none_of_mem hv hnone
    simp [process_data, hi, hfail]
  · intro hall
    have hcoerce : optMapM Value.toNumeric? (d.colVals i)
        = some ((d.colVals i).map
          (fun v => (Value.toNumeric? v).getD Value.null)) := by
      apply optMapM_congr_some
      intro v hv
      have hs := hall v hv
      cases hx : Value.toNumeric? v with
      | none => rw [hx] at hs; simp at hs
      | some w => simp [hx]
    obtain ⟨d2, hrun, _, hlen, _, hage⟩ :=
      process_data_success_shape d i
        (fun v => (Value.toNumeric? v).getD Value.null) hwf hi hcoerce
    refine ⟨d2, hrun, hlen, ?_⟩
    intro k hk n hval
    rw [hage k hk, hval]
    rfl

/-- Witness for C5 at the one-column DataFrame with an age column holding
the numeric string "25" and the number 30: the unparsable-string case is
exercised on ⟨["age"], [[.str "x25"]]⟩ by instantiating the theorem a
second time. -/
theorem process_data_coercion_witness :
    (process_data (.df ⟨["age"], [[.str "x25"]]⟩) = .error .valueError) ∧
    (∃ d2, process_data (.df ⟨["age"], [[.str "25"], [.num 30]]⟩)
        = .ok d2 ∧
      d2.rows.length = 2 ∧
      ∀ k, k < 2 → ∀ n : Int,
        Value.toNumeric?
          ((([[Value.str "25"], [Value.num 30]]).getD k []).getD 0 Value.null)
          = some (Value.num n) →
        (d2.rows.getD k []).getD 0 Value.null = Value.num (n + 1)) :=
  ⟨(process_data_coercion ⟨["age"], [[.str "x25"]]⟩ 0
      (by decide) (by decide)).1
    ⟨Value.str "x25", by decide, by decide⟩,
   (process_data_coercion ⟨["age"], [[.str "25"], [.num 30]]⟩ 0
      (by decide) (by decide)).2 (by decide)⟩

/-- Allocation returns a reference holding the allocated DataFrame. -/
theorem get_alloc_new (h : Heap) (d : DataFrame) :
    Heap.get ⟨h.store ++ [d]⟩ h.store.length = d := by
  show (h.store ++ [d]).getD h.store.length ⟨[], []⟩ = d
  rw [List.getD_append_right _ _ _ _ (Nat.le_refl _)]
  simp

/-- Allocation does not disturb existing references. -/
theorem get_alloc_old (h : Heap) (d : DataFrame) {r : Nat}
    (hr : r < h.store.length) : Heap.get ⟨h.store ++ [d]⟩ r = Heap.get h r := by
  show (h.store ++ [d]).getD r ⟨[], []⟩ = h.store.getD r ⟨[], []⟩
  exact List.getD_append _ _ _ _ hr

/-- Updating one reference does not disturb a different one. -/
theorem get_put_ne (h : Heap) {r1 r : Nat} (hne : r1 ≠ r) (d : DataFrame) :
    Heap.get (h.put r1 d) r = Heap.get h r := by
  show (h.store.set r1 d).getD r ⟨[], []⟩ = h.store.getD r ⟨[], []⟩
  exact getD_set_ne _ hne _ _

/-- C2: a successful `process_data` run leaves the input DataFrame intact:
with the input at reference `r` in the heap, the copy, the coercion and
the increment all happen at a freshly allocated reference, so the output
heap still holds the original DataFrame unchanged at `r` and the returned
reference is distinct from `r`. -/
theorem process_data_heap_no_mutation (h : Heap) (r : Nat)
    (hr : r < h.store.length) {h3 : Heap} {r1 : Nat}
    (hok : process_data_heap h r = .ok (h3, r1)) :
    h3.get r = h.get r ∧ r1 ≠ r := by
  simp only [process_data_heap, Heap.alloc] at hok
  cases hci : colIdx (h.get r).cols "age" with
  | none => rw [hci] at hok; simp at hok
  | some i =>
    simp only [hci] at hok
    cases hcm : optMapM Value.toNumeric?
        ((Heap.get ⟨h.store ++ [h.get r]⟩ h.store.length).colVals i) with
    | none => rw [hcm] at hok; simp at hok
    | some vs =>
      simp only [hcm] at hok
      simp only [Except.ok.injEq, Prod.mk.injEq] at hok
      obtain ⟨hh3, hr1⟩ := hok
      have hne : h.store.length ≠ r := Nat.ne_of_gt hr
      subst hr1
      constructor
      · rw [← hh3, get_put_ne _ hne, get_put_ne _ hne, get_alloc_old _ _ hr]
      · exact hne

/-- Concrete input DataFrame for the C2 witness. -/
def dfW : DataFrame :=
  ⟨["name", "age"], [[.str "Alice", .num 25], [.str "Bob", .num 30]]⟩

/-- Concrete output DataFrame for the C2 witness. -/
def dfW1 : DataFrame :=
  ⟨["name", "age"], [[.str "Alice", .num 26], [.str "Bob", .num 31]]⟩

/-- Witness for C2 on a one-reference heap holding `dfW`: the run leaves
reference 0 untouched and returns the fresh reference 1. -/
theorem process_data_heap_no_mutation_witness :
    Heap.get ⟨[dfW, dfW1]⟩ 0 = Heap.get ⟨[dfW]⟩ 0 ∧ 1 ≠ 0 :=
  @process_data_heap_no_mutation ⟨[dfW]⟩ 0 (by decide) ⟨[dfW, dfW1]⟩ 1
    (by decide)

/-- C6: on a nonempty path, `load_data` raises FileNotFoundError when the
path does not exist and ValueError (the not-a-file failure, a different
error than not-found) when the path is a directory. -/
theorem load_data_path_errors (fs : FileSystem) (p : String)
    (hp : p ≠ "") :
    (fs.lookup p = none →
      (load_data fs p).1 = .error .fileNotFoundError) ∧
    (fs.lookup p = some .dir →
      (load_data fs p).1 = .error .valueError ∧
      PyError.valueError ≠ PyError.fileNotFoundError) := by
  constructor
  · intro hl
    simp [load_data, validate_file_path, hp, hl]
  · intro hl
    refine ⟨?_, by decide⟩
    simp [load_data, validate_file_path, hp, hl]

/-- Filesystem for the C6 witness: one directory entry, no other paths. -/
def fsDirW : FileSystem := ⟨[("somedir", FsEntry.dir)]⟩

/-- Witness for C6: the missing path "absent.csv" raises not-found and the
directory path "somedir" raises the distinct not-a-file ValueError. -/
theorem load_data_path_errors_witness :
    (load_data fsDirW "absent.csv").1 = .error .fileNotFoundError ∧
    (load_data fsDirW "somedir").1 = .error .valueError :=
  ⟨(load_data_path_errors fsDirW "absent.csv" (by decide)).1 (by decide),
   ((load_data_path_errors fsDirW "somedir" (by decide)).2 (by decide)).1⟩

/-- Splitting a character list always yields at least one group. -/
theorem splitCharsOn_ne_nil (sep : Char) (cs : List Char) :
    splitCharsOn sep cs ≠ [] := by
  induction cs with
  | nil => simp [splitCharsOn]
  | cons c cs2 ih =>
    simp only [splitCharsOn]
    cases h : splitCharsOn sep cs2 with
    | nil =>
      by_cases hcs : c = sep <;> simp [hcs]
    | cons g gs =>
      by_cases hcs : c = sep <;> simp [hcs]

/-- A successfully parsed CSV file has at least one column. -/
theorem read_csv_cols_ne_nil {content : String} {df : DataFrame}
    (h : read_csv content = .ok df) : df.cols ≠ [] := by
  revert h
  unfold read_csv
  cases csvLines content with
  | nil => intro h; exact Except.noConfusion h
  | cons header rest =>
    intro h
    injection h with h2
    have hc : df.cols = splitStrOn ',' header := by rw [← h2]
    rw [hc]
    unfold splitStrOn
    intro hnil
    exact splitCharsOn_ne_nil ',' header.data (List.map_eq_nil_iff.mp hnil)

/-- Filesystem for the C3 counterexample: "data.csv" is an existing
regular file whose content is the empty string, hence holds zero rows. -/
def fsEmptyW : FileSystem := ⟨[("data.csv", FsEntry.file "")]⟩

/-- C3 counterexample: loading an existing regular file with empty content
(zero rows) does not return a zero-row dataset with a warning; it raises
EmptyDataError, because the CSV reader finds no content to parse. -/
theorem load_data_empty_file_counterexample :
    fsEmptyW.lookup "data.csv" = some (FsEntry.file "") ∧
    (load_data fsEmptyW "data.csv").1 = .error .emptyDataError := by
  constructor
  · decide
  · decide

/-- C3 amended: for an existing regular file whose content parses to a
dataset with zero rows (a header line but no data rows), `load_data`
returns that zero-row dataset, emits the empty-file warning, and raises
no error; a file with no parseable content at all instead raises
EmptyDataError. -/
theorem load_data_zero_row_file (fs : FileSystem) (p : String)
    (content : String) (df : DataFrame)
    (hp : p ≠ "")
    (hl : fs.lookup p = some (.file content))
    (hread : read_csv content = .ok df)
    (hempty : df.isEmptyDF = true) :
    (load_data fs p).1 = .ok (some df) ∧
    df.rows.length = 0 ∧
    ("Advertencia: El archivo esta vacio: " ++ p) ∈ (load_data fs p).2 := by
  have hcols : df.cols ≠ [] := read_csv_cols_ne_nil hread
  have hrows : df.rows.length = 0 := by
    rcases df with ⟨cols, rows⟩
    simp only [DataFrame.isEmptyDF, Bool.or_eq_true, List.isEmpty_iff] at hempty
    rcases hempty with hr | hc
    · simp [hr]
    · exact absurd hc hcols
  by_cases hsfx : strLower (pathSuffix p) = ".csv" ∨ strLower (pathSuffix p) = ".txt"
  · refine ⟨?_, hrows, ?_⟩ <;>
      simp [load_data, validate_file_path, hp, hl, hread, hempty, hsfx]
  · refine ⟨?_, hrows, ?_⟩ <;>
      simp [load_data, validate_file_path, hp, hl, hread, hempty, hsfx]

/-- Filesystem for the C3 witness: a header-only CSV file. -/
def fsHdrW : FileSystem := ⟨[("hdr.csv", FsEntry.file "name,age")]⟩

/-- Witness for the amended C3 on the header-only file "hdr.csv": a
zero-row dataset is returned together with the empty-file warning. -/
theorem load_data_zero_row_file_witness :
    (load_data fsHdrW "hdr.csv").1
      = .ok (some ⟨["name", "age"], []⟩) ∧
    (⟨["name", "age"], ([] : List (List Value))⟩ : DataFrame).rows.length = 0 ∧
    ("Advertencia: El archivo esta vacio: " ++ "hdr.csv")
      ∈ (load_data fsHdrW "hdr.csv").2 :=
  load_data_zero_row_file fsHdrW "hdr.csv" "name,age" ⟨["name", "age"], []⟩
    (by decide) (by decide) (by decide) (by decide)

/-- Effect of assigning the mapped age column back into the frame: row
count kept, the age cell of each row mapped through `g`, all other cells
unchanged. -/
theorem setCol_map_facts (d : DataFrame) (i : Nat) (g : Value → Value)
    (hwf : d.wellFormed) (hilt : i < d.cols.length) :
    (d.setCol i ((d.colVals i).map g)).rows.length = d.rows.length ∧
    (∀ k, k < d.rows.length →
      ((d.setCol i ((d.colVals i).map g)).rows.getD k []).getD i Value.null
        = g ((d.rows.getD k []).getD i Value.null)) ∧
    (∀ k j, j ≠ i →
      ((d.setCol i ((d.colVals i).map g)).rows.getD k []).getD j Value.null
        = (d.rows.getD k []).getD j Value.null) := by
  have hcv_len : ((d.colVals i).map g).length = d.rows.length := by
    simp [DataFrame.colVals]
  have hlen : (d.setCol i ((d.colVals i).map g)).rows.length = d.rows.length :=
    setColumn_length _ _ _ hcv_len
  have hrow : ∀ k, k < d.rows.length →
      (d.setCol i ((d.colVals i).map g)).rows.getD k []
        = (d.rows.getD k []).set i
            (g ((d.rows.getD k []).getD i Value.null)) := by
    intro k hk
    show (setColumn d.rows i ((d.colVals i).map g)).getD k [] = _
    rw [setColumn_getD _ _ _ hcv_len hk]
    congr 1
    have h1 : ((d.colVals i).map g).getD k Value.null
        = g ((d.colVals i).getD k Value.null) :=
      getD_map_lt _ _ (by simpa [DataFrame.colVals] using hk) _ _
    rw [h1]
    congr 1
    exact getD_map_lt _ _ hk _ []
  refine ⟨hlen, ?_, ?_⟩
  · intro k hk
    rw [hrow k hk]
    exact getD_set_self _
      (by rw [rowLen_of_wellFormed hwf hk]; exact hilt) _ _
  · intro k j hj
    rcases Nat.lt_or_ge k d.rows.length with hk | hk
    · rw [hrow k hk]
      exact getD_set_ne _ (fun h2 => hj h2.symm) _ _
    · have h3 : (d.setCol i ((d.colVals i).map g)).rows.getD k []
          = ([] : List Value) :=
        List.getD_eq_default _ _ (by rw [hlen]; exact hk)
      have h1 : d.rows.getD k [] = ([] : List Value) :=
        List.getD_eq_default _ _ hk
      rw [h3, h1]

/-- C7: reading a CSV whose age column holds only numbers and nulls,
`handle_dataset` first increments exactly the ages strictly greater
than 18 (nulls and values at most 18 stay as they are, and no other cell
changes), then removes the rows whose age is null. -/
theorem handle_dataset_gt18 (fs : FileSystem) (p content : String)
    (df : DataFrame) (i : Nat)
    (hl : fs.lookup p = some (.file content))
    (hread : read_csv content = .ok df)
    (hwf : df.wellFormed)
    (hi : colIdx df.cols "age" = some i)
    (hnum : ∀ v ∈ df.colVals i, v.isNum = true ∨ v = Value.null) :
    ∃ mid d2 : DataFrame, handle_dataset fs p = .ok d2 ∧
      mid.cols = df.cols ∧
      mid.rows.length = df.rows.length ∧
      (∀ k, k < df.rows.length → ∀ n : Int,
        (df.rows.getD k []).getD i Value.null = Value.num n →
        (mid.rows.getD k []).getD i Value.null
          = if 18 < n then Value.num (n + 1) else Value.num n) ∧
      (∀ k, k < df.rows.length →
        (df.rows.getD k []).getD i Value.null = Value.null →
        (mid.rows.getD k []).getD i Value.null = Value.null) ∧
      (∀ k j, j ≠ i →
        (mid.rows.getD k []).getD j Value.null
          = (df.rows.getD k []).getD j Value.null) ∧
      d2.cols = mid.cols ∧
      d2.rows = mid.rows.filter
        (fun r => decide (r.getD i Value.null ≠ Value.null)) := by
  set g : Value → Value := fun v =>
    match v with
    | Value.num n => if 18 < n then Value.num (n + 1) else Value.num n
    | w => w with hg
  have hexc : excMapM gt18Step (df.colVals i)
      = .ok ((df.colVals i).map g) := by
    apply excMapM_congr_ok
    intro v hv
    rcases hnum v hv with hn | hn
    · cases v with
      | num n => rfl
      | str s => simp [Value.isNum] at hn
      | null => simp [Value.isNum] at hn
    · rw [hn]
      rfl
  obtain ⟨hlen, hage, hother⟩ := setCol_map_facts df i g hwf
    (colIdx_lt_length hi)
  refine ⟨df.setCol i ((df.colVals i).map g),
    (df.setCol i ((df.colVals i).map g)).dropnaCol i,
    ?_, rfl, hlen, ?_, ?_, hother, rfl, rfl⟩
  · simp [handle_dataset, readCsvPath, hl, hread, hi, hexc]
  · intro k hk n hval
    rw [hage k hk, hval, hg]
  · intro k hk hval
    rw [hage k hk, hval, hg]

/-- C8: reading a CSV whose age column holds only numbers and nulls,
`manage_data` rebuilds the age column with the per-element conditional
that increments exactly the ages greater than or equal to 18 (nulls and
values below 18 stay, no other cell changes), then keeps only the rows
whose age is not null. -/
theorem manage_data_ge18 (fs : FileSystem) (p content : String)
    (df : DataFrame) (i : Nat)
    (hl : fs.lookup p = some (.file content))
    (hread : read_csv content = .ok df)
    (hwf : df.wellFormed)
    (hi : colIdx df.cols "age" = some i)
    (hnum : ∀ v ∈ df.colVals i, v.isNum = true ∨ v = Value.null) :
    ∃ mid d2 : DataFrame, manage_data fs p = .ok d2 ∧
      mid.cols = df.cols ∧
      mid.rows.length = df.rows.length ∧
      (∀ k, k < df.rows.length → ∀ n : Int,
        (df.rows.getD k []).getD i Value.null = Value.num n →
        (mid.rows.getD k []).getD i Value.null
          = if 18 ≤ n then Value.num (n + 1) else Value.num n) ∧
      (∀ k, k < df.rows.length →
        (df.rows.getD k []).getD i Value.null = Value.null →
        (mid.rows.getD k []).getD i Value.null = Value.null) ∧
      (∀ k j, j ≠ i →
        (mid.rows.getD k []).getD j Value.null
          = (df.rows.getD k []).getD j Value.null) ∧
      d2.cols = mid.cols ∧
      d2.rows = mid.rows.filter
        (fun r => decide (r.getD i Value.null ≠ Value.null)) := by
  set g : Value → Value := fun v =>
    match v with
    | Value.num n => if 18 ≤ n then Value.num (n + 1) else Value.num n
    | w => w with hg
  have hexc : excMapM ge18Step (df.colVals i)
      = .ok ((df.colVals i).map g) := by
    apply excMapM_congr_ok
    intro v hv
    rcases hnum v hv with hn | hn
    · cases v with
      | num n => rfl
      | str s => simp [Value.isNum] at hn
      | null => simp [Value.isNum] at hn
    · rw [hn]
      rfl
  obtain ⟨hlen, hage, hother⟩ := setCol_map_facts df i g hwf
    (colIdx_lt_length hi)
  refine ⟨df.setCol i ((df.colVals i).map g),
    (df.setCol i ((df.colVals i).map g)).dropnaCol i,
    ?_, rfl, hlen, ?_, ?_, hother, rfl, rfl⟩
  · simp [manage_data, readCsvPath, hl, hread, hi, hexc]
  · intro k hk n hval
    rw [hage k hk, hval, hg]
  · intro k hk hval
    rw [hage k hk, hval, hg]

/-- Filesystem for the C7 and C8 witnesses: a CSV with ages 25 and 17 and
one empty (null) age. -/
def fsH : FileSystem :=
  ⟨[("d.csv", FsEntry.file "name,age\nAlice,25\nBob,17\nCara,")]⟩

/-- The DataFrame parsed from the witness CSV. -/
def dfH : DataFrame :=
  ⟨["name", "age"],
    [[.str "Alice", .num 25], [.str "Bob", .num 17], [.str "Cara", .null]]⟩

/-- Witness for C7 on "d.csv": 25 becomes 26, 17 stays, the null-age row
is dropped. -/
theorem handle_dataset_gt18_witness :
    ∃ mid d2 : DataFrame, handle_dataset fsH "d.csv" = .ok d2 ∧
      mid.cols = dfH.cols ∧
      mid.rows.length = dfH.rows.length ∧
      (∀ k, k < dfH.rows.length → ∀ n : Int,
        (dfH.rows.getD k []).getD 1 Value.null = Value.num n →
        (mid.rows.getD k []).getD 1 Value.null
          = if 18 < n then Value.num (n + 1) else Value.num n) ∧
      (∀ k, k < dfH.rows.length →
        (dfH.rows.getD k []).getD 1 Value.null = Value.null →
        (mid.rows.getD k []).getD 1 Value.null = Value.null) ∧
      (∀ k j, j ≠ 1 →
        (mid.rows.getD k []).getD j Value.null
          = (dfH.rows.getD k []).getD j Value.null) ∧
      d2.cols = mid.cols ∧
      d2.rows = mid.rows.filter
        (fun r => decide (r.getD 1 Value.null ≠ Value.null)) :=
  handle_dataset_gt18 fsH "d.csv" "name,age\nAlice,25\nBob,17\nCara,"
    dfH 1 (by decide) (by decide) (by decide) (by decide) (by decide)

/-- Witness for C8 on "d.csv": 25 becomes 26, 17 stays (17 < 18), the
null-age row is dropped. -/
theorem manage_data_ge18_witness :
    ∃ mid d2 : DataFrame, manage_data fsH "d.csv" = .ok d2 ∧
      mid.cols = dfH.cols ∧
      mid.rows.length = dfH.rows.length ∧
      (∀ k, k < dfH.rows.length → ∀ n : Int,
        (dfH.rows.getD k []).getD 1 Value.null = Value.num n →
        (mid.rows.getD k []).getD 1 Value.null
          = if 18 ≤ n then Value.num (n + 1) else Value.num n) ∧
      (∀ k, k < dfH.rows.length →
        (dfH.rows.getD k []).getD 1 Value.null = Value.null →
        (mid.rows.getD k []).getD 1 Value.null = Value.null) ∧
      (∀ k j, j ≠ 1 →
        (mid.rows.getD k []).getD j Value.null
          = (dfH.rows.getD k []).getD j Value.null) ∧
      d2.cols = mid.cols ∧
      d2.rows = mid.rows.filter
        (fun r => decide (r.getD 1 Value.null ≠ Value.null)) :=
  manage_data_ge18 fsH "d.csv" "name,age\nAlice,25\nBob,17\nCara,"
    dfH 1 (by decide) (by decide) (by decide) (by decide) (by decide)

end StreamlitDemo
